import Mathlib

/-!
Verification of `src/mframework/_documentation.py` from the
model-framework repository: a documentation generator that walks a model
specification (features composed of properties) and emits RST text.

The Python module is shallowly embedded below.  Python strings become
`String`, ordered dicts become association lists, fallible operations
(dict subscription, `max` over an empty sequence) return `Option`.  The
file writes performed by `doc2rst` are modelled by returning the list of
(path, content) pairs that would be written.  The model-specification
object itself (`mspec`, with its `get_docs()` accessor and `keys`
attribute) is defined in a module that is not part of the sources at
hand, so its shape is modelled from the specification text.
-/

namespace MFramework

/-! ## Python string and sequence primitives -/

/-- Character-list test: the first list is an initial segment of the second. -/
def listPre : List Char → List Char → Bool
  | [], _ => true
  | _ :: _, [] => false
  | c :: cs, d :: ds => c == d && listPre cs ds

/-- Python `s.startswith(t)`. -/
def pyStartsWith (s t : String) : Bool :=
  listPre t.data s.data

/-- Python string repetition `s * n` (for a non-negative count). -/
def pyStrMul (s : String) : Nat → String
  | 0 => ""
  | n + 1 => s ++ pyStrMul s n

/-- Python `str.center(width, fill)`, following CPython's `do_center`:
when the string is at least `width` long it is returned unchanged, else
the left margin is `marg / 2 + (marg & width & 1)`. -/
def pyCenter (s : String) (width : Nat) (fill : Char) : String :=
  if width ≤ s.length then s
  else
    let marg := width - s.length
    let left := marg / 2 + Nat.land (Nat.land marg width) 1
    pyStrMul (String.singleton fill) left ++ s ++ pyStrMul (String.singleton fill) (marg - left)

/-- Python `max` over a list of naturals: `none` on the empty list
(where CPython raises `ValueError`). -/
def pyMax : List Nat → Option Nat
  | [] => none
  | x :: xs => some (xs.foldl Nat.max x)

/-- Python dict subscription `d[k]` over an association list: `none`
models a `KeyError`. -/
def lookupAssoc {α β : Type} [BEq α] : List (α × β) → α → Option β
  | [], _ => none
  | (k, v) :: rest, key => if k == key then some v else lookupAssoc rest key

/-- Python `str(b)` for a boolean flag. -/
def pyStr (b : Bool) : String :=
  if b then "True" else "False"

/-- Python `os.path.join(a, b)` (posix rules). -/
def os_path_join (a b : String) : String :=
  if pyStartsWith b "/" then b
  else if a = "" then b
  else if a.data.getLast? = some '/' then a ++ b
  else a ++ "/" ++ b

/-- Concatenation of a list of strings (used for closed forms of the
generator's accumulation loops). -/
def joinStr : List String → String
  | [] => ""
  | s :: rest => s ++ joinStr rest

/-- `strContains s t`: `t` occurs as a contiguous substring of `s`. -/
def strContains (s t : String) : Prop :=
  t.data <:+: s.data

instance (s t : String) : Decidable (strContains s t) := by
  unfold strContains
  infer_instance

/-! ## Module-level constants of `_documentation.py` -/

def URL_RESSOURCE : String :=
  "https://raw.githubusercontent.com/airinnova/model-framework/master/src/mframework/ressources"

def URL_ICONS : String := URL_RESSOURCE ++ "/icons"

/-- First piece of `RST_GENERAL_USAGE` (the initial triple-quoted string). -/
def RST_GENERAL_USAGE_1 : String := "
How to use the Model object
===========================

This page describes the usage of the ``Model`` object. This object provides a
pure Python API, so some basic knowledge about Python is assumed.

Model paradigm
--------------

A ``Model`` consists one or more *features*. For instance, an *aircraft* model
might have the feature *propulsion* and the feature *wing*. Such a feature
consists of one or more *properties*. Concrete values can be assigned to these
properties. So, in our example propulsion might have the properties *thrust*
and *type*, and the *wing* feature might have properties *span* and
*mount_point* (e.g. for an engine, landing gear, or some other technical
system). We may assign some values to each of these properties. For instance,
we may set thrust to :math:`50\\,\\textrm\x7bkN\x7d` or the span to
:math:`20\\,\\textrm\x7bm\x7d`. How do we set these values in a Python script?

.. code:: python

    # Get an instance of the Model object
    model = Model()

    # From the model instance, we can create a 'propulsion' instance. We can
    # now set actual value to the properties 'trust' and propulsion 'type'.
    prop = model.set_feature('propulsion')
    prop.set('thrust', 50e3)
    prop.set('type', 'turbofan engine')

    # Now we create a new 'wing'. We can set the 'span' and add mount points
    wing = model.add_feature('wing')
    wing.set('span', 20)
    wing.add('mount_point', (4, 2, 4))
    wing.add('mount_point', (4, 6, 4))
    wing.add('mount_point', (4, 20, 4))

"

/-- Second piece of `RST_GENERAL_USAGE` (the first `+=`, an f-string
interpolating `URL_RESSOURCE`). -/
def RST_GENERAL_USAGE_2 : String := "
.. figure:: " ++ URL_RESSOURCE ++ "/aircraft_model.svg
   :width: 500
   :alt: Simple aircraft model
   :align: center

   Simple aircraft model with a *propulsion* features, and a *wing* feature

Notice the method ``add_feature()``. When calling this method, we create a
*instance* of the feature we want to add (here ``'propulsion'`` and
``'wing'``). The feature instance has ``set()`` and ``add()`` methods to assign
a value to some property. The model object will check the value. That means
that you must provide a number for the property *trust*. If you try to assign,
say a string (``'50e3'``), an error will be thrown, and the model will not
continue to be built.
"

/-- Third piece of `RST_GENERAL_USAGE` (the second `+=`, an f-string
interpolating `URL_RESSOURCE`; its final `\n` escape plus the line break
yield two trailing newlines after the blank line). -/
def RST_GENERAL_USAGE_3 : String := "

.. figure:: " ++ URL_RESSOURCE ++ "/model_api_hierarchy.svg
   :alt: Model hierarchy
   :align: center

   A model object can have multiple features, and each feature can have
   multiple properties

Model and feature methods
-------------------------

The ``Model`` object and its features provide only few methods. The main thing
to remember is that there are ``set*`` and ``add*`` methods. The ``set*``
method will always apply if there can only be one instance, and the ``add*``
method will apply if there can be multiple instances. For example, an aircraft
can have more than one wing, hence the ``add_feature()`` method applies. To
create another wing, we simply call the method again. However, some feature may
only exists once. In our dummy aircraft model, we impose the restriction of
only adding *one* propulsion feature (arguably, an aircraft model could have
multiple propulsion instances, but here we assume otherwise). To highlight that
propulsion is a *singleton* feature, we use the ``set_feature()`` method.
Trying to use ``add_feature('propulsion')`` will result in an error and the
model will not continue to build. Property values in a feature can be assigned
with the ``add()`` and ``set()`` methods, depending on whether the properties
are singleton or not. In the example above, the wing may have multiple mount
points, but there can only be a single wing span.

+---------------+----------------------------------+---------------------------------+
|               | **Model**                        | **Feature**                     |
+---------------+----------------------------------+---------------------------------+
| Singleton     | ``set_feature('feature_name')``  | ``set('property_name', value)`` |
+---------------+----------------------------------+---------------------------------+
| Non-singleton | ``add_feature('feature_name')``  | ``add('property_name', value)`` |
+---------------+----------------------------------+---------------------------------+

You can retrieve feature instances from your model at any time. Note that you
must have created these instances first with the methods discussed above. The
table below shows the available methods you may use.

..
    TODO
    * More detailed explanation of difference between 'get()' and 'iter()'

+---------------+--------------------------+---------------------------+
|               | **Model**                | **Feature**               |
+---------------+--------------------------+---------------------------+
| Singleton     | ``get('feature_name')``  | ``get('property_name')``  |
+---------------+--------------------------+---------------------------+
| Non-singleton | ``iter('feature_name')`` | ``iter('property_name')`` |
+---------------+--------------------------+---------------------------+

Running the model
-----------------

The last thing you need to know is how to run the model. Once you set up the
entire, you can call the ``run()`` method. This method will start the actual
evaluation of the model.

.. code:: python

    model = Model()
    ...  # Add features and assign values here
    results = model.run()

Results
-------

TODO

\n
"

/-- `RST_GENERAL_USAGE`: the module builds it with two `+=` steps. -/
def RST_GENERAL_USAGE : String :=
  RST_GENERAL_USAGE_1 ++ RST_GENERAL_USAGE_2 ++ RST_GENERAL_USAGE_3

/-- `RST_INTRO_MODEL_API` (the `\n\n` escape plus the surrounding line
breaks yield five newlines after the colon). -/
def RST_INTRO_MODEL_API : String := "Below you will find a comprehensive list of all
available features and properties. The model object has the following features:

\n\n
"

/-! ## The model specification -/

/-- Modelled from the spec: the documentation entry of one property.
The specification describes a property by "name, singleton flag,
required flag, description, value schema"; the generator reads the
description under the key `'main'` (absent or empty when undocumented)
and the schema under `'schema'` (absent, or a dict whose values are
rendered through `str`; the values are modelled by their `str` image). -/
structure PDict : Type where
  main : Option String
  singleton : Bool
  required : Bool
  schema : Option (List (String × String))
deriving DecidableEq

/-- Modelled from the spec: the documentation entry of one feature
("name, singleton flag, required flag, description"), with its
properties' entries under the key `'sub'`. -/
structure FDict : Type where
  main : Option String
  singleton : Bool
  required : Bool
  sub : List (String × PDict)
deriving DecidableEq

/-- Modelled from the spec: "the in-memory description of all
features/properties and their documentation strings, consumed by the
generator".  `keys` is the `mspec.keys` attribute (the feature names);
`docs` is the ordered dict that `get_docs()` returns. -/
structure MSpec : Type where
  keys : List String
  docs : List (String × FDict)
deriving DecidableEq

/-- Modelled from the spec: `mspec.get_docs()`, a read-only accessor. -/
def get_docs (mspec : MSpec) : List (String × FDict) :=
  mspec.docs

/-! ## The generator functions of `_documentation.py` -/

/-- The loop of `gen_feature_graph` over `enumerate(mspec.keys)`,
threading the accumulated RST text. -/
def genFeatureEdges (rst : String) : List (Nat × String) → String
  | [] => rst
  | (i, key) :: rest =>
    genFeatureEdges (rst ++ ("    A --> F" ++ Nat.repr i ++ "[" ++ key ++ "]\n")) rest

/-- `gen_feature_graph`: mermaid graph listing all available features. -/
def gen_feature_graph (mspec : MSpec) : String :=
  let rst := "" ++ ".. mermaid::\n\n" ++ "    graph TD\n" ++ "    A[Model]\n"
  let rst := genFeatureEdges rst mspec.keys.enum
  rst ++ "\n\n"

/-- `gen_graph_property_relation`: mermaid graph relating a property to
its parent feature (the two edge lines end in a space before the
newline, as in the source). -/
def gen_graph_property_relation (prop_name parent_feature : String) : String :=
  "" ++ ".. mermaid::\n\n" ++ "    graph LR\n" ++ "    A[Model]\n"
    ++ ("    A --> F1[" ++ parent_feature ++ "] \n")
    ++ ("    F1 --> P1[" ++ prop_name ++ "] \n")
    ++ "\n\n"

/-- The `header` dict of `get_header`. -/
def header : List (Int × String) :=
  [(0, "="), (1, "-"), (2, "~"), (3, "^")]

/-- `get_header`: the given string underlined with the level's
character; `none` models the `KeyError` raised for a level outside the
`header` dict. -/
def get_header (string : String) (level : Int) : Option String :=
  (lookupAssoc header level).map fun u =>
    string ++ "\n" ++ pyStrMul u string.length ++ "\n\n"

/-- The `icons` dict of `rst_add_icon`. -/
def icons : List (String × String) :=
  [("feature", "archive.svg"), ("property", "parking.svg"),
   ("description", "notes.svg"), ("required", "lifebuoy.svg"),
   ("singleton", "point.svg"), ("schema", "clipboard-check.svg")]

/-- `rst_add_icon`: an RST image directive for the icon; `none` models
the `KeyError` raised for an unknown icon type. -/
def rst_add_icon (icon_type : String) : Option String :=
  (lookupAssoc icons icon_type).map fun ic =>
    "" ++ (".. image:: " ++ URL_ICONS ++ "/" ++ ic ++ "\n")
    ++ "   :align: left\n"
    ++ ("   :alt: " ++ icon_type ++ "\n")
    ++ "\n"

/-- The loop of `schemadict2rst` over `sd.items()`, threading the
accumulated RST text. -/
def schemaRows (max_key_len max_value_len : Nat) (rst : String) :
    List (String × String) → String
  | [] => rst
  | (key, schema) :: rest =>
    schemaRows max_key_len max_value_len
      (rst ++ (pyCenter ("**" ++ key ++ "**") max_key_len ' '
        ++ " " ++ pyCenter schema max_value_len ' ' ++ "\n"))
      rest

/-- `schemadict2rst`: a two-column RST table for a schema dict; `none`
models the `ValueError` that `max` raises on an empty dict. -/
def schemadict2rst (sd : List (String × String)) : Option String :=
  (pyMax (sd.map fun kv => kv.1.length)).bind fun m =>
  let max_key_len := m + 4
  (pyMax (sd.map fun kv => kv.2.length)).map fun max_value_len =>
  let n1 := max_key_len
  let n2 := max_value_len
  let table_env := pyStrMul "=" n1 ++ " " ++ pyStrMul "=" n2 ++ "\n"
  let rst := "" ++ table_env
  let rst := schemaRows max_key_len max_value_len rst sd
  rst ++ table_env ++ "\n"

/-- Body of the inner (per-property) loop of `doc2rst`. -/
def prop2rst (f_name p_name : String) (p_dict : PDict) : Option String :=
  (get_header ("Property: " ++ p_name) 2).bind fun h =>
  let rst := h ++ gen_graph_property_relation p_name f_name
  let p_main_doc := p_dict.main.getD ""
  (if p_main_doc ≠ "" then
      (rst_add_icon "description").map fun ic =>
        rst ++ (ic ++ "*Description*: ") ++ (p_main_doc ++ "\n\n")
    else some rst).bind fun rst =>
  (rst_add_icon "singleton").bind fun ic_s =>
  let rst := rst ++ (ic_s ++ "*Singleton*: " ++ pyStr p_dict.singleton ++ "\n\n")
  (rst_add_icon "required").bind fun ic_r =>
  let rst := rst ++ (ic_r ++ "*Required*: " ++ pyStr p_dict.required ++ "\n\n")
  let p_schema_doc := p_dict.schema.getD []
  if p_schema_doc ≠ [] then
    (rst_add_icon "schema").bind fun ic =>
    (schemadict2rst p_schema_doc).map fun t =>
      rst ++ (ic ++ "*Schema*:\n\n") ++ t
  else some rst

/-- The inner loop of `doc2rst` over `f_dict['sub'].items()`, threading
the accumulated RST text. -/
def props2rst (f_name : String) (rst : String) : List (String × PDict) → Option String
  | [] => some rst
  | (p_name, p_dict) :: rest =>
    (prop2rst f_name p_name p_dict).bind fun s =>
    props2rst f_name (rst ++ s) rest

/-- Body of the outer (per-feature) loop of `doc2rst`, for a feature
that is not skipped. -/
def feature2rst (f_name : String) (f_dict : FDict) : Option String :=
  (get_header ("Feature: " ++ f_name) 1).bind fun h =>
  let rst := h
  let f_main_doc := f_dict.main.getD ""
  (if f_main_doc ≠ "" then
      (rst_add_icon "description").map fun ic =>
        rst ++ (ic ++ "*Description*: ") ++ f_main_doc ++ "\n\n"
    else some rst).bind fun rst =>
  (rst_add_icon "singleton").bind fun ic_s =>
  let rst := rst ++ (ic_s ++ "*Singleton*: " ++ pyStr f_dict.singleton ++ "\n\n")
  (rst_add_icon "required").bind fun ic_r =>
  let rst := rst ++ (ic_r ++ "*Required*: " ++ pyStr f_dict.required ++ "\n\n")
  props2rst f_name rst f_dict.sub

/-- The outer loop of `doc2rst` over `doc.items()`: entries whose name
starts with `'$'` are skipped with `continue`. -/
def features2rst (rst : String) : List (String × FDict) → Option String
  | [] => some rst
  | (f_name, f_dict) :: rest =>
    if pyStartsWith f_name "$" then features2rst rst rest
    else
      (feature2rst f_name f_dict).bind fun s =>
      features2rst (rst ++ s) rest

/-- `doc2rst`: the generated RST string together with the list of
(path, content) files it writes (empty when `dir_path` is `None`). -/
def doc2rst (mspec : MSpec) (dir_path : Option String) :
    Option (String × List (String × String)) :=
  let doc := get_docs mspec
  (get_header "Model" 0).bind fun h =>
  let rst := "" ++ h ++ RST_INTRO_MODEL_API
  let rst := rst ++ gen_feature_graph mspec
  (features2rst rst doc).map fun rst =>
  let files :=
    match dir_path with
    | none => []
    | some d =>
      [(os_path_join d "model_api_general.rst", RST_GENERAL_USAGE),
       (os_path_join d "model_api.rst", rst)]
  (rst, files)

/-! ## Closed forms of the generator

Non-monadic mirrors of the functions above, proved equal to them.  All
claims are then settled through these bridge lemmas. -/

/-- The string `get_header` produces for a level whose underline
character (as a one-character string) is `u`. -/
def headerStr (s u : String) : String :=
  s ++ "\n" ++ pyStrMul u s.length ++ "\n\n"

/-- The string `rst_add_icon` produces for icon type `t` with icon file
`ic`. -/
def iconStr (t ic : String) : String :=
  "" ++ (".. image:: " ++ URL_ICONS ++ "/" ++ ic ++ "\n")
  ++ "   :align: left\n"
  ++ ("   :alt: " ++ t ++ "\n")
  ++ "\n"

/-- One row of the table of `schemadict2rst`. -/
def tableRow (kw vw : Nat) (kv : String × String) : String :=
  pyCenter ("**" ++ kv.1 ++ "**") kw ' ' ++ " " ++ pyCenter kv.2 vw ' ' ++ "\n"

/-- The table of `schemadict2rst`, given the two maxima. -/
def schemaTable (sd : List (String × String)) (kmax vmax : Nat) : String :=
  let table_env := pyStrMul "=" (kmax + 4) ++ " " ++ pyStrMul "=" vmax ++ "\n"
  table_env ++ joinStr (sd.map (tableRow (kmax + 4) vmax)) ++ table_env ++ "\n"

/-- The table of `schemadict2rst` with the maxima computed from the
dict (meaningful only for a non-empty dict). -/
def schemaTableOf (sd : List (String × String)) : String :=
  schemaTable sd ((pyMax (sd.map fun kv => kv.1.length)).getD 0)
    ((pyMax (sd.map fun kv => kv.2.length)).getD 0)

/-- The description block emitted for a feature or property: present
exactly when the `'main'` doc string is present and non-empty. -/
def descBlock (main : Option String) : String :=
  if main.getD "" ≠ "" then
    iconStr "description" "notes.svg" ++ "*Description*: " ++ main.getD "" ++ "\n\n"
  else ""

/-- The schema block emitted for a property: present exactly when the
`'schema'` entry is present and non-empty. -/
def schemaBlock (schema : Option (List (String × String))) : String :=
  if schema.getD [] ≠ [] then
    iconStr "schema" "clipboard-check.svg" ++ "*Schema*:\n\n" ++ schemaTableOf (schema.getD [])
  else ""

/-- Closed form of `prop2rst`. -/
def propStr (f_name p_name : String) (p_dict : PDict) : String :=
  headerStr ("Property: " ++ p_name) "~"
    ++ gen_graph_property_relation p_name f_name
    ++ descBlock p_dict.main
    ++ (iconStr "singleton" "point.svg" ++ "*Singleton*: " ++ pyStr p_dict.singleton ++ "\n\n")
    ++ (iconStr "required" "lifebuoy.svg" ++ "*Required*: " ++ pyStr p_dict.required ++ "\n\n")
    ++ schemaBlock p_dict.schema

/-- Closed form of `feature2rst`. -/
def featureStr (f_name : String) (f_dict : FDict) : String :=
  headerStr ("Feature: " ++ f_name) "-"
    ++ descBlock f_dict.main
    ++ (iconStr "singleton" "point.svg" ++ "*Singleton*: " ++ pyStr f_dict.singleton ++ "\n\n")
    ++ (iconStr "required" "lifebuoy.svg" ++ "*Required*: " ++ pyStr f_dict.required ++ "\n\n")
    ++ joinStr (f_dict.sub.map fun pr => propStr f_name pr.1 pr.2)

/-- Closed form of `features2rst` from the empty accumulator: the
entries whose name starts with `'$'` contribute nothing. -/
def featuresStr (docs : List (String × FDict)) : String :=
  joinStr ((docs.filter fun pr => !pyStartsWith pr.1 "$").map fun pr => featureStr pr.1 pr.2)

/-- Closed form of the RST string returned by `doc2rst`. -/
def rstStr (mspec : MSpec) : String :=
  headerStr "Model" "=" ++ RST_INTRO_MODEL_API ++ gen_feature_graph mspec
    ++ featuresStr mspec.docs

/-- Closed form of the files written by `doc2rst`. -/
def filesFor (mspec : MSpec) (dir_path : Option String) : List (String × String) :=
  match dir_path with
  | none => []
  | some d =>
    [(os_path_join d "model_api_general.rst", RST_GENERAL_USAGE),
     (os_path_join d "model_api.rst", rstStr mspec)]

/-! ## Bridge lemmas -/

theorem get_header_0 (s : String) : get_header s 0 = some (headerStr s "=") := rfl

theorem get_header_1 (s : String) : get_header s 1 = some (headerStr s "-") := rfl

theorem get_header_2 (s : String) : get_header s 2 = some (headerStr s "~") := rfl

theorem get_header_3 (s : String) : get_header s 3 = some (headerStr s "^") := rfl

theorem rst_add_icon_description :
    rst_add_icon "description" = some (iconStr "description" "notes.svg") := rfl

theorem rst_add_icon_singleton :
    rst_add_icon "singleton" = some (iconStr "singleton" "point.svg") := rfl

theorem rst_add_icon_required :
    rst_add_icon "required" = some (iconStr "required" "lifebuoy.svg") := rfl

theorem rst_add_icon_schema :
    rst_add_icon "schema" = some (iconStr "schema" "clipboard-check.svg") := rfl

theorem joinStr_nil : joinStr [] = "" := rfl

theorem joinStr_cons (s : String) (l : List String) :
    joinStr (s :: l) = s ++ joinStr l := rfl

/-- One edge line of the feature graph. -/
def edgeStr (p : Nat × String) : String :=
  "    A --> F" ++ Nat.repr p.1 ++ "[" ++ p.2 ++ "]\n"

theorem genFeatureEdges_eq :
    ∀ (l : List (Nat × String)) (rst : String),
      genFeatureEdges rst l = rst ++ joinStr (l.map edgeStr)
  | [], rst => by simp [genFeatureEdges, joinStr, String.append_empty]
  | (i, key) :: rest, rst => by
    simp only [genFeatureEdges, genFeatureEdges_eq rest, List.map_cons, joinStr_cons,
      edgeStr, String.append_assoc]

theorem schemaRows_eq (kw vw : Nat) :
    ∀ (l : List (String × String)) (rst : String),
      schemaRows kw vw rst l = rst ++ joinStr (l.map (tableRow kw vw))
  | [], rst => by simp [schemaRows, joinStr, String.append_empty]
  | (key, schema) :: rest, rst => by
    simp only [schemaRows, schemaRows_eq kw vw rest, List.map_cons, joinStr_cons,
      tableRow, String.append_assoc]

/-- `schemadict2rst` succeeds on every non-empty dict with the closed
table form. -/
theorem schemadict2rst_eq (sd : List (String × String)) (h : sd ≠ []) :
    schemadict2rst sd = some (schemaTableOf sd) := by
  match sd, h with
  | (k, v) :: rest, _ =>
    simp only [schemadict2rst, schemaTableOf, schemaTable, pyMax, List.map_cons,
      Option.some_bind, Option.map_some', Option.getD_some, schemaRows_eq,
      tableRow, String.append_assoc, String.empty_append]

theorem prop2rst_eq (f_name p_name : String) (p_dict : PDict) :
    prop2rst f_name p_name p_dict = some (propStr f_name p_name p_dict) := by
  unfold prop2rst propStr descBlock schemaBlock
  simp only [get_header_2, rst_add_icon_description, rst_add_icon_singleton,
    rst_add_icon_required, rst_add_icon_schema, Option.some_bind, Option.map_some']
  by_cases hm : p_dict.main.getD "" ≠ ""
  · rw [if_pos hm, if_pos hm]
    simp only [Option.some_bind]
    by_cases hs : p_dict.schema.getD [] ≠ []
    · rw [if_pos hs, if_pos hs, schemadict2rst_eq _ hs]
      simp only [Option.some_bind, Option.map_some', String.append_assoc]
    · rw [if_neg hs, if_neg hs]
      simp only [String.append_assoc, String.append_empty]
  · rw [if_neg hm, if_neg hm]
    simp only [Option.some_bind]
    by_cases hs : p_dict.schema.getD [] ≠ []
    · rw [if_pos hs, if_pos hs, schemadict2rst_eq _ hs]
      simp only [Option.some_bind, Option.map_some', String.append_assoc,
        String.append_empty]
    · rw [if_neg hs, if_neg hs]
      simp only [String.append_assoc, String.append_empty]

theorem props2rst_eq (f_name : String) :
    ∀ (l : List (String × PDict)) (rst : String),
      props2rst f_name rst l
        = some (rst ++ joinStr (l.map fun pr => propStr f_name pr.1 pr.2))
  | [], rst => by simp [props2rst, joinStr, String.append_empty]
  | (p_name, p_dict) :: rest, rst => by
    simp only [props2rst, prop2rst_eq, Option.some_bind, props2rst_eq f_name rest,
      List.map_cons, joinStr_cons, String.append_assoc]

theorem feature2rst_eq (f_name : String) (f_dict : FDict) :
    feature2rst f_name f_dict = some (featureStr f_name f_dict) := by
  unfold feature2rst featureStr descBlock
  simp only [get_header_1, rst_add_icon_description, rst_add_icon_singleton,
    rst_add_icon_required, Option.some_bind, Option.map_some']
  by_cases hm : f_dict.main.getD "" ≠ ""
  · rw [if_pos hm, if_pos hm]
    simp only [Option.some_bind, props2rst_eq, String.append_assoc]
  · rw [if_neg hm, if_neg hm]
    simp only [Option.some_bind, props2rst_eq, String.append_assoc,
      String.append_empty]

theorem features2rst_eq :
    ∀ (docs : List (String × FDict)) (rst : String),
      features2rst rst docs = some (rst ++ featuresStr docs)
  | [], rst => by simp [features2rst, featuresStr, joinStr, String.append_empty]
  | (f_name, f_dict) :: rest, rst => by
    by_cases h : pyStartsWith f_name "$" = true
    · simp only [features2rst, if_pos h, features2rst_eq rest, featuresStr,
        List.filter_cons, h, Bool.not_true, Bool.false_eq_true, ite_false,
        ite_true]
    · simp only [features2rst, if_neg h, feature2rst_eq, Option.some_bind,
        features2rst_eq rest, featuresStr, List.filter_cons]
      rw [if_pos (by simp [Bool.not_eq_true] at h ⊢; exact h)]
      simp only [List.map_cons, joinStr_cons, String.append_assoc]

/-- `doc2rst` always succeeds, returning the closed-form RST string and
file list. -/
theorem doc2rst_eq (mspec : MSpec) (dir_path : Option String) :
    doc2rst mspec dir_path = some (rstStr mspec, filesFor mspec dir_path) := by
  cases dir_path with
  | none =>
    unfold doc2rst filesFor get_docs
    simp only [get_header_0, Option.some_bind, features2rst_eq, Option.map_some',
      String.empty_append, rstStr, String.append_assoc]
  | some d =>
    unfold doc2rst filesFor get_docs
    simp only [get_header_0, Option.some_bind, features2rst_eq, Option.map_some',
      String.empty_append, rstStr, String.append_assoc]

/-! ## Substring lemmas -/

theorem strContains_self (t : String) : strContains t t :=
  ⟨[], [], by simp⟩

theorem strContains_appendL (a b t : String) (h : strContains a t) :
    strContains (a ++ b) t := by
  obtain ⟨s, u, hs⟩ := h
  exact ⟨s, u ++ b.data, by rw [String.data_append, ← hs]; simp⟩

theorem strContains_appendR (a b t : String) (h : strContains b t) :
    strContains (a ++ b) t := by
  obtain ⟨s, u, hs⟩ := h
  exact ⟨a.data ++ s, u, by rw [String.data_append, ← hs]; simp⟩

theorem strContains_trans {s m t : String} (h1 : strContains s m)
    (h2 : strContains m t) : strContains s t :=
  List.IsInfix.trans h2 h1

theorem strContains_joinStr {l : List String} {x : String} (h : x ∈ l) :
    strContains (joinStr l) x := by
  induction l with
  | nil => cases h
  | cons a l ih =>
    rw [joinStr_cons]
    rcases List.mem_cons.mp h with rfl | hm
    · exact strContains_appendL _ _ _ (strContains_self _)
    · exact strContains_appendR _ _ _ (ih hm)

theorem pyStrMul_length (s : String) : ∀ n, (pyStrMul s n).length = n * s.length
  | 0 => by simp [pyStrMul]
  | n + 1 => by
    simp [pyStrMul, String.length_append, pyStrMul_length s n, Nat.succ_mul,
      Nat.add_comm]

/-! ## Fuel-bounded version of the walk

The generation is a single walk over the features and, within each
feature, its properties.  The fueled versions below consume one unit of
fuel per feature visited and one per property visited, and compute the
very same result whenever the fuel covers the walk's size. -/

/-- Fueled inner loop: one fuel unit per property; returns the leftover
fuel. -/
def props2rstFuel (f_name : String) : Nat → String → List (String × PDict) → Option (String × Nat)
  | fuel, rst, [] => some (rst, fuel)
  | 0, _, _ :: _ => none
  | n + 1, rst, (p_name, p_dict) :: rest =>
    (prop2rst f_name p_name p_dict).bind fun s =>
    props2rstFuel f_name n (rst ++ s) rest

/-- Fueled per-feature body. -/
def feature2rstFuel (fuel : Nat) (f_name : String) (f_dict : FDict) : Option (String × Nat) :=
  (get_header ("Feature: " ++ f_name) 1).bind fun h =>
  let rst := h
  let f_main_doc := f_dict.main.getD ""
  (if f_main_doc ≠ "" then
      (rst_add_icon "description").map fun ic =>
        rst ++ (ic ++ "*Description*: ") ++ f_main_doc ++ "\n\n"
    else some rst).bind fun rst =>
  (rst_add_icon "singleton").bind fun ic_s =>
  let rst := rst ++ (ic_s ++ "*Singleton*: " ++ pyStr f_dict.singleton ++ "\n\n")
  (rst_add_icon "required").bind fun ic_r =>
  let rst := rst ++ (ic_r ++ "*Required*: " ++ pyStr f_dict.required ++ "\n\n")
  props2rstFuel f_name fuel rst f_dict.sub

/-- Fueled outer loop: one fuel unit per docs entry. -/
def features2rstFuel : Nat → String → List (String × FDict) → Option String
  | _, rst, [] => some rst
  | 0, _, _ :: _ => none
  | n + 1, rst, (f_name, f_dict) :: rest =>
    if pyStartsWith f_name "$" then features2rstFuel n rst rest
    else
      (feature2rstFuel n f_name f_dict).bind fun p =>
      features2rstFuel p.2 (rst ++ p.1) rest

/-- Fueled `doc2rst`. -/
def doc2rstFuel (fuel : Nat) (mspec : MSpec) (dir_path : Option String) :
    Option (String × List (String × String)) :=
  let doc := get_docs mspec
  (get_header "Model" 0).bind fun h =>
  let rst := "" ++ h ++ RST_INTRO_MODEL_API
  let rst := rst ++ gen_feature_graph mspec
  (features2rstFuel fuel rst doc).map fun rst =>
  let files :=
    match dir_path with
    | none => []
    | some d =>
      [(os_path_join d "model_api_general.rst", RST_GENERAL_USAGE),
       (os_path_join d "model_api.rst", rst)]
  (rst, files)

/-- The size of the walk: one step per docs entry plus one step per
property of each feature that is not skipped. -/
def walkSize : List (String × FDict) → Nat
  | [] => 0
  | (f_name, f_dict) :: rest =>
    1 + (if pyStartsWith f_name "$" then 0 else f_dict.sub.length) + walkSize rest

theorem props2rstFuel_eq (f_name : String) :
    ∀ (l : List (String × PDict)) (fuel : Nat) (rst : String), l.length ≤ fuel →
      props2rstFuel f_name fuel rst l
        = (props2rst f_name rst l).map fun s => (s, fuel - l.length)
  | [], fuel, rst, _ => by simp [props2rstFuel, props2rst]
  | (p_name, p_dict) :: rest, fuel, rst, h => by
    match fuel, h with
    | n + 1, h =>
      have hr : rest.length ≤ n := by
        simpa [Nat.succ_le_succ_iff] using h
      simp only [props2rstFuel, props2rst, prop2rst_eq, Option.some_bind,
        props2rstFuel_eq f_name rest n _ hr, props2rst_eq, Option.map_some',
        List.length_cons, Nat.succ_sub_succ]

theorem feature2rstFuel_eq (fuel : Nat) (f_name : String) (f_dict : FDict)
    (h : f_dict.sub.length ≤ fuel) :
    feature2rstFuel fuel f_name f_dict
      = (feature2rst f_name f_dict).map fun s => (s, fuel - f_dict.sub.length) := by
  unfold feature2rstFuel feature2rst
  simp only [get_header_1, rst_add_icon_description, rst_add_icon_singleton,
    rst_add_icon_required, Option.some_bind, Option.map_some']
  by_cases hm : f_dict.main.getD "" ≠ ""
  · rw [if_pos hm]
    simp only [Option.some_bind, props2rstFuel_eq f_name _ _ _ h, props2rst_eq,
      Option.map_some']
  · rw [if_neg hm]
    simp only [Option.some_bind, props2rstFuel_eq f_name _ _ _ h, props2rst_eq,
      Option.map_some']

theorem features2rstFuel_eq :
    ∀ (docs : List (String × FDict)) (fuel : Nat) (rst : String),
      walkSize docs ≤ fuel →
      features2rstFuel fuel rst docs = features2rst rst docs
  | [], fuel, rst, _ => by simp [features2rstFuel, features2rst]
  | (f_name, f_dict) :: rest, fuel, rst, h => by
    match fuel with
    | 0 =>
      exfalso
      have : 1 ≤ walkSize ((f_name, f_dict) :: rest) := by
        unfold walkSize; omega
      omega
    | n + 1 =>
      by_cases hs : pyStartsWith f_name "$" = true
      · have hr : walkSize rest ≤ n := by
          have := h; unfold walkSize at this; rw [if_pos hs] at this; omega
        simp only [features2rstFuel, features2rst, if_pos hs,
          features2rstFuel_eq rest n rst hr]
      · have hlen : f_dict.sub.length + walkSize rest ≤ n := by
          have := h; unfold walkSize at this; rw [if_neg hs] at this; omega
        have hr : walkSize rest ≤ n - f_dict.sub.length := by omega
        simp only [features2rstFuel, features2rst, if_neg hs,
          feature2rstFuel_eq n f_name f_dict (by omega), feature2rst_eq,
          Option.map_some', Option.some_bind,
          features2rstFuel_eq rest (n - f_dict.sub.length) _ hr]

/-! ## State-threaded version of the generator

`doc2rst` touches the specification object only through `get_docs()`
and `keys`.  The version below threads the specification object's state
through every one of those reads, so that "the generator does not
modify its input" becomes a provable statement. -/

/-- Modelled from the spec: reading `mspec.get_docs()` returns the docs
dict and leaves the specification object as it was. -/
def get_docsS (m : MSpec) : (List (String × FDict)) × MSpec :=
  (m.docs, m)

/-- Modelled from the spec: reading `mspec.keys` returns the feature
names and leaves the specification object as it was. -/
def keysS (m : MSpec) : (List String) × MSpec :=
  (m.keys, m)

/-- `gen_feature_graph` with the specification state threaded. -/
def gen_feature_graphS (m : MSpec) : String × MSpec :=
  let kp := keysS m
  let rst := "" ++ ".. mermaid::\n\n" ++ "    graph TD\n" ++ "    A[Model]\n"
  let rst := genFeatureEdges rst kp.1.enum
  (rst ++ "\n\n", kp.2)

theorem gen_feature_graphS_eq (m : MSpec) :
    gen_feature_graphS m = (gen_feature_graph m, m) := rfl

/-- `doc2rst` with the specification state threaded. -/
def doc2rstS (m : MSpec) (dir_path : Option String) :
    Option ((String × List (String × String)) × MSpec) :=
  let dp := get_docsS m
  (get_header "Model" 0).bind fun h =>
  let gp := gen_feature_graphS dp.2
  let rst := "" ++ h ++ RST_INTRO_MODEL_API
  let rst := rst ++ gp.1
  (features2rst rst dp.1).map fun rst =>
  let files :=
    match dir_path with
    | none => []
    | some d =>
      [(os_path_join d "model_api_general.rst", RST_GENERAL_USAGE),
       (os_path_join d "model_api.rst", rst)]
  ((rst, files), gp.2)

/-! ## Containment helpers for the generated document -/

theorem featuresStr_contains (docs : List (String × FDict)) (f_name : String)
    (f_dict : FDict) (hmem : (f_name, f_dict) ∈ docs)
    (hns : pyStartsWith f_name "$" = false) :
    strContains (featuresStr docs) (featureStr f_name f_dict) := by
  unfold featuresStr
  apply strContains_joinStr
  exact List.mem_map.mpr
    ⟨(f_name, f_dict), List.mem_filter.mpr ⟨hmem, by simp [hns]⟩, rfl⟩

theorem featureStr_contains_header (f_name : String) (f_dict : FDict) :
    strContains (featureStr f_name f_dict) (headerStr ("Feature: " ++ f_name) "-") := by
  unfold featureStr
  exact strContains_appendL _ _ _ (strContains_appendL _ _ _ (strContains_appendL _ _ _
    (strContains_appendL _ _ _ (strContains_self _))))

theorem featureStr_contains_prop (f_name p_name : String) (f_dict : FDict)
    (p_dict : PDict) (hmem : (p_name, p_dict) ∈ f_dict.sub) :
    strContains (featureStr f_name f_dict) (propStr f_name p_name p_dict) := by
  unfold featureStr
  exact strContains_appendR _ _ _
    (strContains_joinStr (List.mem_map.mpr ⟨(p_name, p_dict), hmem, rfl⟩))

theorem propStr_contains_header (f_name p_name : String) (p_dict : PDict) :
    strContains (propStr f_name p_name p_dict) (headerStr ("Property: " ++ p_name) "~") := by
  unfold propStr
  exact strContains_appendL _ _ _ (strContains_appendL _ _ _ (strContains_appendL _ _ _
    (strContains_appendL _ _ _ (strContains_appendL _ _ _ (strContains_self _)))))

theorem propStr_contains_graph (f_name p_name : String) (p_dict : PDict) :
    strContains (propStr f_name p_name p_dict)
      (gen_graph_property_relation p_name f_name) := by
  unfold propStr
  exact strContains_appendL _ _ _ (strContains_appendL _ _ _ (strContains_appendL _ _ _
    (strContains_appendL _ _ _ (strContains_appendR _ _ _ (strContains_self _)))))

theorem rstStr_contains_featuresStr (mspec : MSpec) :
    strContains (rstStr mspec) (featuresStr mspec.docs) := by
  unfold rstStr
  exact strContains_appendR _ _ _ (strContains_self _)

set_option maxRecDepth 8192 in
/-- The fixed usage guide opens with its level-0 header. -/
theorem usage_guide_has_top_header :
    strContains RST_GENERAL_USAGE (headerStr "How to use the Model object" "=") := by
  have he : headerStr "How to use the Model object" "="
      = "How to use the Model object\n===========================\n\n" := by decide
  have h1 : strContains RST_GENERAL_USAGE_1
      "How to use the Model object\n===========================\n\n" := by decide
  unfold RST_GENERAL_USAGE
  rw [he]
  exact strContains_appendL _ _ _ (strContains_appendL _ _ _ h1)

/-- A concrete model specification used by the witnesses. -/
def mspec0 : MSpec :=
  ⟨["wing"],
   [("$meta", ⟨none, true, true, []⟩),
    ("wing", ⟨some "The wing", false, true,
      [("span", ⟨some "Span", true, false, some [("type", "number")]⟩)]⟩)]⟩

/-! ## The claims -/

/-- C1: `doc2rst` produces RST text containing the top-level usage
guide (written as `model_api_general.rst` when a directory is given), a
feature-dependency diagram, and, for every feature of the docs (the
`'$'`-prefixed special entries are not features) and every property of
such a feature, a level-1 `Feature:` section and, nested under it, a
level-2 `Property:` section with a property-relation diagram. -/
theorem claim_C1 (mspec : MSpec) (d : String) :
    doc2rst mspec (some d)
      = some (rstStr mspec,
          [(os_path_join d "model_api_general.rst", RST_GENERAL_USAGE),
           (os_path_join d "model_api.rst", rstStr mspec)])
    ∧ strContains RST_GENERAL_USAGE (headerStr "How to use the Model object" "=")
    ∧ strContains (rstStr mspec) (gen_feature_graph mspec)
    ∧ ∀ f_name f_dict, (f_name, f_dict) ∈ mspec.docs →
        pyStartsWith f_name "$" = false →
        strContains (rstStr mspec) (headerStr ("Feature: " ++ f_name) "-")
        ∧ ∀ p_name p_dict, (p_name, p_dict) ∈ f_dict.sub →
            strContains (rstStr mspec) (headerStr ("Property: " ++ p_name) "~")
            ∧ strContains (rstStr mspec) (gen_graph_property_relation p_name f_name) := by
  refine ⟨doc2rst_eq mspec (some d), usage_guide_has_top_header, ?_, ?_⟩
  · unfold rstStr
    exact strContains_appendL _ _ _ (strContains_appendR _ _ _ (strContains_self _))
  · intro f_name f_dict hmem hns
    have hf : strContains (rstStr mspec) (featureStr f_name f_dict) :=
      strContains_trans (rstStr_contains_featuresStr mspec)
        (featuresStr_contains mspec.docs f_name f_dict hmem hns)
    refine ⟨strContains_trans hf (featureStr_contains_header f_name f_dict), ?_⟩
    intro p_name p_dict hpm
    have hp : strContains (rstStr mspec) (propStr f_name p_name p_dict) :=
      strContains_trans hf (featureStr_contains_prop f_name p_name f_dict p_dict hpm)
    exact ⟨strContains_trans hp (propStr_contains_header f_name p_name p_dict),
      strContains_trans hp (propStr_contains_graph f_name p_name p_dict)⟩

/-- Witness for C1 at a concrete specification. -/
theorem claim_C1_witness :
    strContains (rstStr mspec0) (headerStr ("Feature: " ++ "wing") "-")
    ∧ strContains (rstStr mspec0) (headerStr ("Property: " ++ "span") "~") := by
  have h := (claim_C1 mspec0 "out").2.2.2 "wing"
    ⟨some "The wing", false, true,
      [("span", ⟨some "Span", true, false, some [("type", "number")]⟩)]⟩
    (by decide) (by decide)
  exact ⟨h.1, (h.2 "span" ⟨some "Span", true, false, some [("type", "number")]⟩
    (by decide)).1⟩

/-- C2: RST generation itself never fails: for every model
specification and every `dir_path`, `doc2rst` returns a result (no
`KeyError`, no failing `max`, no failing header lookup). -/
theorem claim_C2 (mspec : MSpec) (dir_path : Option String) :
    ∃ rst files, doc2rst mspec dir_path = some (rst, files) :=
  ⟨rstStr mspec, filesFor mspec dir_path, doc2rst_eq mspec dir_path⟩

/-- C3: `doc2rst` writes files exactly when `dir_path` is given: with a
directory it writes `model_api_general.rst` (the fixed usage guide) and
`model_api.rst` (the generated RST); with `None` it writes nothing; in
both cases the same generated RST string is returned. -/
theorem claim_C3 (mspec : MSpec) :
    ∃ rst, doc2rst mspec none = some (rst, [])
      ∧ ∀ d, doc2rst mspec (some d)
          = some (rst,
              [(os_path_join d "model_api_general.rst", RST_GENERAL_USAGE),
               (os_path_join d "model_api.rst", rst)]) :=
  ⟨rstStr mspec, doc2rst_eq mspec none, fun d => doc2rst_eq mspec (some d)⟩

/-- C4: every rendered feature and property carries a `*Singleton*` and
a `*Required*` line from the specification's flags; a `*Description*`
block appears iff the `'main'` doc string is present and non-empty, and
a `*Schema*` table appears iff the `'schema'` entry is present and
non-empty. -/
theorem claim_C4 (f_name p_name : String) (f_dict : FDict) (p_dict : PDict) :
    feature2rst f_name f_dict
      = some (headerStr ("Feature: " ++ f_name) "-"
          ++ (if f_dict.main.getD "" ≠ "" then
                iconStr "description" "notes.svg" ++ "*Description*: "
                  ++ f_dict.main.getD "" ++ "\n\n"
              else "")
          ++ (iconStr "singleton" "point.svg" ++ "*Singleton*: "
              ++ pyStr f_dict.singleton ++ "\n\n")
          ++ (iconStr "required" "lifebuoy.svg" ++ "*Required*: "
              ++ pyStr f_dict.required ++ "\n\n")
          ++ joinStr (f_dict.sub.map fun pr => propStr f_name pr.1 pr.2))
    ∧ prop2rst f_name p_name p_dict
      = some (headerStr ("Property: " ++ p_name) "~"
          ++ gen_graph_property_relation p_name f_name
          ++ (if p_dict.main.getD "" ≠ "" then
                iconStr "description" "notes.svg" ++ "*Description*: "
                  ++ p_dict.main.getD "" ++ "\n\n"
              else "")
          ++ (iconStr "singleton" "point.svg" ++ "*Singleton*: "
              ++ pyStr p_dict.singleton ++ "\n\n")
          ++ (iconStr "required" "lifebuoy.svg" ++ "*Required*: "
              ++ pyStr p_dict.required ++ "\n\n")
          ++ (if p_dict.schema.getD [] ≠ [] then
                iconStr "schema" "clipboard-check.svg" ++ "*Schema*:\n\n"
                  ++ schemaTableOf (p_dict.schema.getD [])
              else "")) :=
  ⟨feature2rst_eq f_name f_dict, prop2rst_eq f_name p_name p_dict⟩

/-- C5: the feature graph is a mermaid `graph TD` with the node
`A[Model]` and exactly one edge `A --> Fi[key]` per key of
`mspec.keys`, in order, the index being the key's position. -/
theorem claim_C5 (mspec : MSpec) :
    strContains (gen_feature_graph mspec) "    A[Model]\n"
    ∧ gen_feature_graph mspec
      = ".. mermaid::\n\n" ++ "    graph TD\n" ++ "    A[Model]\n"
        ++ joinStr ((mspec.keys.enum).map edgeStr) ++ "\n\n" := by
  constructor
  · simp only [gen_feature_graph, genFeatureEdges_eq]
    exact strContains_appendL _ _ _ (strContains_appendL _ _ _
      (strContains_appendR _ _ _ (strContains_self _)))
  · simp only [gen_feature_graph, genFeatureEdges_eq, String.empty_append,
      String.append_assoc]

/-- C6: `doc2rst` does not modify the model specification: the
state-threaded generator returns the specification object unchanged,
with the same output. -/
theorem claim_C6 (m : MSpec) (dp : Option String) :
    doc2rstS m dp = (doc2rst m dp).map fun out => (out, m) := by
  rw [doc2rst_eq, Option.map_some']
  cases dp with
  | none =>
    unfold doc2rstS get_docsS filesFor
    simp only [gen_feature_graphS_eq, get_header_0, Option.some_bind,
      features2rst_eq, Option.map_some', rstStr, String.empty_append,
      String.append_assoc]
  | some d =>
    unfold doc2rstS get_docsS filesFor
    simp only [gen_feature_graphS_eq, get_header_0, Option.some_bind,
      features2rst_eq, Option.map_some', rstStr, String.empty_append,
      String.append_assoc]

/-- C7: generation is one bounded walk: with one fuel unit per docs
entry and one per property of each rendered feature, the fueled
generator already computes `doc2rst`. -/
theorem claim_C7 (mspec : MSpec) (dir_path : Option String) (fuel : Nat)
    (h : walkSize mspec.docs ≤ fuel) :
    doc2rstFuel fuel mspec dir_path = doc2rst mspec dir_path := by
  simp only [doc2rstFuel, doc2rst, get_docs, get_header_0, Option.some_bind]
  rw [features2rstFuel_eq _ _ _ h]

/-- Witness for C7 at a concrete specification with exactly enough fuel. -/
theorem claim_C7_witness :
    doc2rstFuel (walkSize mspec0.docs) mspec0 none = doc2rst mspec0 none :=
  claim_C7 mspec0 none (walkSize mspec0.docs) (Nat.le_refl _)

/-- C8: docs entries whose name starts with `'$'` are skipped entirely:
removing them from the docs leaves the whole output unchanged. -/
theorem claim_C8 (mspec : MSpec) (dir_path : Option String) :
    doc2rst mspec dir_path
      = doc2rst ⟨mspec.keys, mspec.docs.filter fun pr => !pyStartsWith pr.1 "$"⟩
          dir_path := by
  have hf : ((mspec.docs.filter fun pr => !pyStartsWith pr.1 "$").filter
        fun pr => !pyStartsWith pr.1 "$")
      = mspec.docs.filter fun pr => !pyStartsWith pr.1 "$" := by
    rw [List.filter_filter]
    simp
  have hr : rstStr ⟨mspec.keys, mspec.docs.filter fun pr => !pyStartsWith pr.1 "$"⟩
      = rstStr mspec := by
    simp only [rstStr, featuresStr, gen_feature_graph, hf]
  rw [doc2rst_eq, doc2rst_eq]
  cases dir_path with
  | none => simp [filesFor, hr]
  | some d => simp [filesFor, hr]

/-- C9: `schemadict2rst` fails on the empty dict and, on a non-empty
dict, returns one row per key between two border lines of
`max key length + 4` equals signs, a space, and `max value length`
equals signs. -/
theorem claim_C9 :
    schemadict2rst ([] : List (String × String)) = none
    ∧ ∀ sd : List (String × String), sd ≠ [] →
        ∃ kmax vmax,
          pyMax (sd.map fun kv => kv.1.length) = some kmax
          ∧ pyMax (sd.map fun kv => kv.2.length) = some vmax
          ∧ (pyStrMul "=" (kmax + 4)).length = kmax + 4
          ∧ (pyStrMul "=" vmax).length = vmax
          ∧ schemadict2rst sd
            = some ((pyStrMul "=" (kmax + 4) ++ " " ++ pyStrMul "=" vmax ++ "\n")
                ++ joinStr (sd.map (tableRow (kmax + 4) vmax))
                ++ (pyStrMul "=" (kmax + 4) ++ " " ++ pyStrMul "=" vmax ++ "\n")
                ++ "\n") := by
  constructor
  · rfl
  · intro sd h
    match sd, h with
    | (k, v) :: rest, h =>
      have h1 : "=".length = 1 := rfl
      refine ⟨(rest.map fun kv => kv.1.length).foldl Nat.max k.length,
        (rest.map fun kv => kv.2.length).foldl Nat.max v.length,
        by simp [pyMax], by simp [pyMax],
        by simp [pyStrMul_length, h1],
        by simp [pyStrMul_length, h1], ?_⟩
      rw [schemadict2rst_eq _ h]
      simp only [schemaTableOf, schemaTable, pyMax, List.map_cons,
        Option.getD_some, String.append_assoc]

/-- Witness for C9 on a concrete non-empty schema dict. -/
theorem claim_C9_witness :
    ∃ kmax vmax,
      pyMax ([("a", "bc")].map fun kv : String × String => kv.1.length) = some kmax
      ∧ pyMax ([("a", "bc")].map fun kv : String × String => kv.2.length) = some vmax
      ∧ (pyStrMul "=" (kmax + 4)).length = kmax + 4
      ∧ (pyStrMul "=" vmax).length = vmax
      ∧ schemadict2rst [("a", "bc")]
        = some ((pyStrMul "=" (kmax + 4) ++ " " ++ pyStrMul "=" vmax ++ "\n")
            ++ joinStr ([("a", "bc")].map (tableRow (kmax + 4) vmax))
            ++ (pyStrMul "=" (kmax + 4) ++ " " ++ pyStrMul "=" vmax ++ "\n")
            ++ "\n") :=
  claim_C9.2 [("a", "bc")] (by decide)

/-- C10: `get_header` is defined exactly for levels 0, 1, 2, 3 (with
underline characters `=`, `-`, `~`, `^` and an underline of exactly the
header's length) and returns `none` (a `KeyError`) for any other
level. -/
theorem claim_C10 (s : String) (level : Int) :
    (level = 0 →
      get_header s level = some (s ++ "\n" ++ pyStrMul "=" s.length ++ "\n\n")
      ∧ (pyStrMul "=" s.length).length = s.length)
    ∧ (level = 1 →
      get_header s level = some (s ++ "\n" ++ pyStrMul "-" s.length ++ "\n\n")
      ∧ (pyStrMul "-" s.length).length = s.length)
    ∧ (level = 2 →
      get_header s level = some (s ++ "\n" ++ pyStrMul "~" s.length ++ "\n\n")
      ∧ (pyStrMul "~" s.length).length = s.length)
    ∧ (level = 3 →
      get_header s level = some (s ++ "\n" ++ pyStrMul "^" s.length ++ "\n\n")
      ∧ (pyStrMul "^" s.length).length = s.length)
    ∧ (level ≠ 0 → level ≠ 1 → level ≠ 2 → level ≠ 3 →
      get_header s level = none) := by
  refine ⟨?_, ?_, ?_, ?_, ?_⟩
  · rintro rfl
    exact ⟨get_header_0 s, by simp [pyStrMul_length, show "=".length = 1 from rfl]⟩
  · rintro rfl
    exact ⟨get_header_1 s, by simp [pyStrMul_length, show "-".length = 1 from rfl]⟩
  · rintro rfl
    exact ⟨get_header_2 s, by simp [pyStrMul_length, show "~".length = 1 from rfl]⟩
  · rintro rfl
    exact ⟨get_header_3 s, by simp [pyStrMul_length, show "^".length = 1 from rfl]⟩
  · intro h0 h1 h2 h3
    have e0 : ((0 : Int) == level) = false := by
      simp [beq_iff_eq]; omega
    have e1 : ((1 : Int) == level) = false := by
      simp [beq_iff_eq]; omega
    have e2 : ((2 : Int) == level) = false := by
      simp [beq_iff_eq]; omega
    have e3 : ((3 : Int) == level) = false := by
      simp [beq_iff_eq]; omega
    simp [get_header, header, lookupAssoc, e0, e1, e2, e3]

/-- Witness for C10 at a defined and an undefined level. -/
theorem claim_C10_witness :
    (get_header "ab" 1 = some ("ab" ++ "\n" ++ pyStrMul "-" "ab".length ++ "\n\n")
      ∧ (pyStrMul "-" "ab".length).length = "ab".length)
    ∧ get_header "ab" 9 = none :=
  ⟨(claim_C10 "ab" 1).2.1 rfl,
   (claim_C10 "ab" 9).2.2.2.2 (by decide) (by decide) (by decide) (by decide)⟩

end MFramework
